import Mathlib

/-!
# Payment gateway (`PaymentGateWay.cpp`)

A shallow embedding of the classes of `PaymentGateWay.cpp` and of the two
operations of `PaymentGateway`, followed by the properties checked against it.

Conventions of the embedding.

* A C++ `double` amount is a rational number. The program only copies amounts
  (from a request into a transaction, from a transaction onto the output
  stream); it never computes with them.
* `std::cout` is the only mutable state: a `Console` is the list of lines
  printed so far, and an operation returning `void` maps the console before
  the call to the console after it.
* A printed line is kept as the tuple of values streamed into it, in order; the
  text formatting of the number is not modelled.
-/

namespace PaymentGateWay

/-! ## Data model -/

/-- The enumeration `PaymentMethod` (line 13). -/
inductive PaymentMethod where
  | CREDIT_CARD
  | DEBIT_CARD
  | NET_BANKING
  | PAYPAL
  | OTHER
  deriving DecidableEq, Repr

/-- The enumeration `TransactionStatus` (line 14). -/
inductive TransactionStatus where
  | PENDING
  | SUCCESS
  | FAILURE
  | REFUNDED
  deriving DecidableEq, Repr

/-- The value of `static_cast<int>(status)`: the position of the enumerator in
the declaration of line 14. -/
def TransactionStatus.toInt : TransactionStatus → Int
  | .PENDING => 0
  | .SUCCESS => 1
  | .FAILURE => 2
  | .REFUNDED => 3

/-- The class `CardInfo` (lines 16-33); its constructor initialises the four
members from its four arguments, which is what `CardInfo.mk` does. -/
structure CardInfo where
  cardNumber : String
  cardHolderName : String
  expirationDate : String
  cvv : String
  deriving DecidableEq, Repr

def CardInfo.getCardNumber (c : CardInfo) : String := c.cardNumber
def CardInfo.getCardHolderName (c : CardInfo) : String := c.cardHolderName
def CardInfo.getExpirationDate (c : CardInfo) : String := c.expirationDate
def CardInfo.getCvv (c : CardInfo) : String := c.cvv

/-- The class `PaymentRequest` (lines 35-60). -/
structure PaymentRequest where
  orderId : String
  amount : ℚ
  currency : String
  paymentMethod : PaymentMethod
  cardInfo : CardInfo
  token : String
  deriving DecidableEq, Repr

/-- The constructor for card payments (lines 46-47). The member `token` has no
initialiser and is the empty string. -/
def PaymentRequest.ctorCard (orderId : String) (amount : ℚ) (currency : String)
    (paymentMethod : PaymentMethod) (cardInfo : CardInfo) : PaymentRequest :=
  { orderId := orderId, amount := amount, currency := currency,
    paymentMethod := paymentMethod, cardInfo := cardInfo, token := "" }

/-- The constructor for tokenized payments (lines 50-51). The member `cardInfo`
has no initialiser; it is taken to hold four empty strings. -/
def PaymentRequest.ctorToken (orderId : String) (amount : ℚ) (currency : String)
    (paymentMethod : PaymentMethod) (token : String) : PaymentRequest :=
  { orderId := orderId, amount := amount, currency := currency,
    paymentMethod := paymentMethod, cardInfo := ⟨"", "", "", ""⟩, token := token }

def PaymentRequest.getOrderId (r : PaymentRequest) : String := r.orderId
def PaymentRequest.getAmount (r : PaymentRequest) : ℚ := r.amount
def PaymentRequest.getCurrency (r : PaymentRequest) : String := r.currency
def PaymentRequest.getPaymentMethod (r : PaymentRequest) : PaymentMethod := r.paymentMethod
def PaymentRequest.getCardInfo (r : PaymentRequest) : CardInfo := r.cardInfo
def PaymentRequest.getToken (r : PaymentRequest) : String := r.token

/-- Modelled from the spec: the class `RefundRequest` is declared on line 7 and
never defined in the source. The program builds one from an order id, an amount
and a currency (line 189) and reads it through `getOrderId`, `getAmount` and
`getCurrency` (line 105); the specification records that it "only has orderId",
with neither an idempotency key nor a link to a payment id. -/
structure RefundRequest where
  orderId : String
  amount : ℚ
  currency : String
  deriving DecidableEq, Repr

def RefundRequest.getOrderId (r : RefundRequest) : String := r.orderId
def RefundRequest.getAmount (r : RefundRequest) : ℚ := r.amount
def RefundRequest.getCurrency (r : RefundRequest) : String := r.currency

/-- The class `Transaction` (lines 62-81); its constructor initialises the six
members from its six arguments, in this order, which is what `Transaction.mk`
does. -/
structure Transaction where
  transactionId : String
  orderId : String
  status : TransactionStatus
  amount : ℚ
  currency : String
  timestamp : String
  deriving DecidableEq, Repr

def Transaction.getTransactionId (t : Transaction) : String := t.transactionId
def Transaction.getOrderId (t : Transaction) : String := t.orderId
def Transaction.getStatus (t : Transaction) : TransactionStatus := t.status
def Transaction.getAmount (t : Transaction) : ℚ := t.amount
def Transaction.getCurrency (t : Transaction) : String := t.currency
def Transaction.getTimestamp (t : Transaction) : String := t.timestamp

/-- The class `Payment`, derived from `Transaction` (lines 83-96). -/
structure Payment extends Transaction where
  paymentId : String
  paymentRequest : PaymentRequest
  deriving DecidableEq, Repr

/-- The constructor of `Payment` (lines 89-92). -/
def Payment.ctor (paymentId : String) (paymentRequest : PaymentRequest)
    (status : TransactionStatus) (timestamp : String) : Payment :=
  { toTransaction :=
      Transaction.mk paymentId paymentRequest.getOrderId status paymentRequest.getAmount
        paymentRequest.getCurrency timestamp,
    paymentId := paymentId,
    paymentRequest := paymentRequest }

def Payment.getPaymentId (p : Payment) : String := p.paymentId
def Payment.getPaymentRequest (p : Payment) : PaymentRequest := p.paymentRequest

/-- The class `Refund`, derived from `Transaction` (lines 98-111). -/
structure Refund extends Transaction where
  refundId : String
  refundRequest : RefundRequest
  deriving DecidableEq, Repr

/-- The constructor of `Refund` (lines 104-107). -/
def Refund.ctor (refundId : String) (refundRequest : RefundRequest)
    (status : TransactionStatus) (timestamp : String) : Refund :=
  { toTransaction :=
      Transaction.mk refundId refundRequest.getOrderId status refundRequest.getAmount
        refundRequest.getCurrency timestamp,
    refundId := refundId,
    refundRequest := refundRequest }

def Refund.getRefundId (r : Refund) : String := r.refundId
def Refund.getRefundRequest (r : Refund) : RefundRequest := r.refundRequest

/-! ## The output stream -/

/-- Which of the two messages a printed line starts with: `"Payment logged: "`
(line 116) or `"Refund logged: "` (line 120). -/
inductive LineKind where
  | paymentLogged
  | refundLogged
  deriving DecidableEq, Repr

/-- One line written to `std::cout`: the values streamed after `ID=`,
`OrderID=`, `Amount=`, `Status=` and `Timestamp=`. -/
structure LogLine where
  kind : LineKind
  id : String
  orderId : String
  amount : ℚ
  status : Int
  timestamp : String
  deriving DecidableEq, Repr

/-- The contents of `std::cout`, oldest line first. -/
abbrev Console := List LogLine

/-! ## Operations -/

/-- The class `TransactionLogger` (lines 113-122); it has no data member. -/
structure TransactionLogger where
  deriving DecidableEq, Repr

/-- The member function `TransactionLogger::logPayment` (lines 115-117). -/
def TransactionLogger.logPayment (_l : TransactionLogger) (payment : Payment)
    (out : Console) : Console :=
  out ++ [{ kind := .paymentLogged, id := payment.getPaymentId,
            orderId := payment.getOrderId, amount := payment.getAmount,
            status := payment.getStatus.toInt, timestamp := payment.getTimestamp }]

/-- The member function `TransactionLogger::logRefund` (lines 119-121). -/
def TransactionLogger.logRefund (_l : TransactionLogger) (refund : Refund)
    (out : Console) : Console :=
  out ++ [{ kind := .refundLogged, id := refund.getRefundId,
            orderId := refund.getOrderId, amount := refund.getAmount,
            status := refund.getStatus.toInt, timestamp := refund.getTimestamp }]

/-- The class `PaymentGateway` (lines 124-167). -/
structure PaymentGateway where
  merchantId : String
  apiKey : String
  transactionLogger : TransactionLogger
  deriving DecidableEq, Repr

/-- The constructor of `PaymentGateway` (lines 131-132). -/
def PaymentGateway.ctor (merchantId apiKey : String) : PaymentGateway :=
  { merchantId := merchantId, apiKey := apiKey, transactionLogger := {} }

/-- The member function `PaymentGateway::generateUniqueID` (lines 158-161). -/
def PaymentGateway.generateUniqueID (_g : PaymentGateway) : String := "UniqueID123"

/-- The member function `PaymentGateway::getCurrentTimestamp` (lines 163-166). -/
def PaymentGateway.getCurrentTimestamp (_g : PaymentGateway) : String := "2023-08-06 14:30:00"

/-- The local object `payment` of `processPayment` (lines 138-140, under the
comment "Simulate successful payment"). -/
def PaymentGateway.simulateSuccessfulPayment (g : PaymentGateway)
    (paymentRequest : PaymentRequest) : Payment :=
  let paymentId := g.generateUniqueID
  let timestamp := g.getCurrentTimestamp
  Payment.ctor paymentId paymentRequest TransactionStatus.SUCCESS timestamp

/-- The member function `PaymentGateway::processPayment` (lines 134-144). -/
def PaymentGateway.processPayment (g : PaymentGateway) (paymentRequest : PaymentRequest)
    (out : Console) : Console :=
  let payment := g.simulateSuccessfulPayment paymentRequest
  g.transactionLogger.logPayment payment out

/-- The local object `refund` of `processRefund` (lines 150-152, under the
comment "Simulate successful refund"). -/
def PaymentGateway.simulateSuccessfulRefund (g : PaymentGateway)
    (refundRequest : RefundRequest) : Refund :=
  let refundId := g.generateUniqueID
  let timestamp := g.getCurrentTimestamp
  Refund.ctor refundId refundRequest TransactionStatus.REFUNDED timestamp

/-- The member function `PaymentGateway::processRefund` (lines 146-156). -/
def PaymentGateway.processRefund (g : PaymentGateway) (refundRequest : RefundRequest)
    (out : Console) : Console :=
  let refund := g.simulateSuccessfulRefund refundRequest
  g.transactionLogger.logRefund refund out

/-! ## The sample run of `main` -/

/-- The gateway of line 172. -/
def paymentGateway : PaymentGateway := PaymentGateway.ctor "merchant123" "api_key_456"

/-- The card of line 175. -/
def cardInfo : CardInfo := CardInfo.mk "4111111111111111" "John Doe" "12/25" "123"

/-- The card payment request of line 176. -/
def paymentRequestWithCard : PaymentRequest :=
  PaymentRequest.ctorCard "order_123" 100 "USD" PaymentMethod.CREDIT_CARD cardInfo

/-- The token of line 182. -/
def token : String := "payment_token_789"

/-- The tokenized payment request of line 183. -/
def paymentRequestWithToken : PaymentRequest :=
  PaymentRequest.ctorToken "order_456" 50 "EUR" PaymentMethod.PAYPAL token

/-- The refund request of line 189. -/
def refundRequest : RefundRequest := RefundRequest.mk "order_123" 50 "USD"

/-- The function `main` (lines 169-195), as the lines it prints. -/
def main : Console :=
  paymentGateway.processRefund refundRequest
    (paymentGateway.processPayment paymentRequestWithToken
      (paymentGateway.processPayment paymentRequestWithCard []))

/-! ## Notions used to state the properties

These are read off the console; the program itself computes none of them. -/

/-- The lines a call printed: what the console after the call holds beyond the
console `before` the call. -/
def printedSince (before after : Console) : Console := after.drop before.length

/-- Whether a line reports a payment of the order with status `SUCCESS`. -/
def LogLine.isSuccessfulPaymentOf (orderId : String) (l : LogLine) : Bool :=
  decide (l.kind = LineKind.paymentLogged) && decide (l.orderId = orderId) &&
    decide (l.status = TransactionStatus.SUCCESS.toInt)

/-- Whether a line reports a refund of the order with status `REFUNDED`. -/
def LogLine.isRefundedOf (orderId : String) (l : LogLine) : Bool :=
  decide (l.kind = LineKind.refundLogged) && decide (l.orderId = orderId) &&
    decide (l.status = TransactionStatus.REFUNDED.toInt)

/-- The sum of the amounts of the payments of the order reported `SUCCESS`. -/
def paidTotal (orderId : String) (out : Console) : ℚ :=
  ((out.filter (LogLine.isSuccessfulPaymentOf orderId)).map LogLine.amount).sum

/-- The sum of the amounts of the refunds of the order reported `REFUNDED`. -/
def refundedTotal (orderId : String) (out : Console) : ℚ :=
  ((out.filter (LogLine.isRefundedOf orderId)).map LogLine.amount).sum

/-- The remaining refundable balance of the order: what was paid minus what
was already refunded. -/
def remainingRefundable (orderId : String) (out : Console) : ℚ :=
  paidTotal orderId out - refundedTotal orderId out

/-- A sequence of `processRefund` calls, in order. -/
def PaymentGateway.processRefunds (g : PaymentGateway) (refundRequests : List RefundRequest)
    (out : Console) : Console :=
  refundRequests.foldl (fun o r => g.processRefund r o) out

/-! ## Properties of the constructors -/

/-- Claim C10: a `Payment` built by its constructor from a payment id, a
request, a status and a timestamp has a transaction id equal to its payment id,
the order id, amount and currency of the request it holds, and the status and
timestamp it was given; the payment id and the request held are the arguments. -/
theorem Payment_ctor_fields_agree (paymentId : String) (paymentRequest : PaymentRequest)
    (status : TransactionStatus) (timestamp : String) :
    (Payment.ctor paymentId paymentRequest status timestamp).getTransactionId
        = (Payment.ctor paymentId paymentRequest status timestamp).getPaymentId
      ∧ (Payment.ctor paymentId paymentRequest status timestamp).getOrderId
        = (Payment.ctor paymentId paymentRequest status timestamp).getPaymentRequest.getOrderId
      ∧ (Payment.ctor paymentId paymentRequest status timestamp).getAmount
        = (Payment.ctor paymentId paymentRequest status timestamp).getPaymentRequest.getAmount
      ∧ (Payment.ctor paymentId paymentRequest status timestamp).getCurrency
        = (Payment.ctor paymentId paymentRequest status timestamp).getPaymentRequest.getCurrency
      ∧ (Payment.ctor paymentId paymentRequest status timestamp).getStatus = status
      ∧ (Payment.ctor paymentId paymentRequest status timestamp).getTimestamp = timestamp
      ∧ (Payment.ctor paymentId paymentRequest status timestamp).getPaymentId = paymentId
      ∧ (Payment.ctor paymentId paymentRequest status timestamp).getPaymentRequest
        = paymentRequest :=
  ⟨rfl, rfl, rfl, rfl, rfl, rfl, rfl, rfl⟩

/-! ## Properties of `processPayment` -/

/-- The console after `processPayment`, spelled out. -/
theorem processPayment_eq (g : PaymentGateway) (r : PaymentRequest) (out : Console) :
    g.processPayment r out
      = out ++ [LogLine.mk LineKind.paymentLogged "UniqueID123" r.orderId r.amount 1
          "2023-08-06 14:30:00"] := rfl

/-- The console after `processRefund`, spelled out. -/
theorem processRefund_eq (g : PaymentGateway) (r : RefundRequest) (out : Console) :
    g.processRefund r out
      = out ++ [LogLine.mk LineKind.refundLogged "UniqueID123" r.orderId r.amount 3
          "2023-08-06 14:30:00"] := rfl

/-- What a call printed, when the call appended to the console. -/
theorem printedSince_append (out new : Console) : printedSince out (out ++ new) = new := by
  simp [printedSince]

/-- Claim C9: for every payment request, `processPayment` leaves the earlier
lines untouched and prints exactly one line, a payment line with id
"UniqueID123", the order id and amount of the request, status `SUCCESS` and
timestamp "2023-08-06 14:30:00"; the payment object it reports is the
transaction with that id, order id, status, amount, timestamp and the currency
of the request; no line it prints has status `PENDING` or `FAILURE`. -/
theorem processPayment_records_one_success (g : PaymentGateway) (r : PaymentRequest)
    (out : Console) :
    g.processPayment r out
        = out ++ [LogLine.mk LineKind.paymentLogged "UniqueID123" r.getOrderId r.getAmount
            TransactionStatus.SUCCESS.toInt "2023-08-06 14:30:00"]
      ∧ (printedSince out (g.processPayment r out)).length = 1
      ∧ (g.simulateSuccessfulPayment r).toTransaction
        = Transaction.mk "UniqueID123" r.getOrderId TransactionStatus.SUCCESS r.getAmount
            r.getCurrency "2023-08-06 14:30:00"
      ∧ ∀ l ∈ printedSince out (g.processPayment r out),
          l.status ≠ TransactionStatus.PENDING.toInt
            ∧ l.status ≠ TransactionStatus.FAILURE.toInt := by
  refine ⟨rfl, ?_, rfl, ?_⟩
  · rw [processPayment_eq, printedSince_append]; rfl
  · intro l hl
    rw [processPayment_eq, printedSince_append] at hl
    rw [List.mem_singleton] at hl
    subst hl
    constructor <;> simp [TransactionStatus.toInt]

/-- Counterexample to claim C1 as stated: the card request of `main`, submitted
twice, is recorded twice; after the second submission the console holds two
successful payments of order_123 and differs from the console after the
first. -/
theorem processPayment_twice_records_twice :
    ((paymentGateway.processPayment paymentRequestWithCard
          (paymentGateway.processPayment paymentRequestWithCard [])).filter
        (LogLine.isSuccessfulPaymentOf "order_123")).length = 2
      ∧ paymentGateway.processPayment paymentRequestWithCard
            (paymentGateway.processPayment paymentRequestWithCard [])
          ≠ paymentGateway.processPayment paymentRequestWithCard [] := by
  constructor
  · rfl
  · decide

/-- Claim C1, amended: a payment request submitted twice is processed twice.
The line a submission prints does not depend on what was printed before, so the
second submission prints the same line as the first (same id, order id, amount,
status, timestamp), and both lines are on the console afterwards: the second
submission is recorded as a second payment. The transaction built for the
request (id, order id, status, amount, currency, timestamp) is the same
whatever the merchant id and API key of the gateway. -/
theorem processPayment_twice (g : PaymentGateway) (r : PaymentRequest) (out : Console) :
    (∀ g2 : PaymentGateway, (g2.simulateSuccessfulPayment r).toTransaction
        = (g.simulateSuccessfulPayment r).toTransaction)
      ∧ (∀ out2 : Console, printedSince out2 (g.processPayment r out2)
        = printedSince out (g.processPayment r out))
      ∧ g.processPayment r (g.processPayment r out)
        = out ++ [LogLine.mk LineKind.paymentLogged "UniqueID123" r.getOrderId r.getAmount
                    TransactionStatus.SUCCESS.toInt "2023-08-06 14:30:00",
                  LogLine.mk LineKind.paymentLogged "UniqueID123" r.getOrderId r.getAmount
                    TransactionStatus.SUCCESS.toInt "2023-08-06 14:30:00"]
      ∧ (printedSince out (g.processPayment r (g.processPayment r out))).length = 2 := by
  refine ⟨fun _ => rfl, ?_, ?_, ?_⟩
  · intro out2
    rw [processPayment_eq, processPayment_eq, printedSince_append, printedSince_append]
  · rw [processPayment_eq, processPayment_eq, List.append_assoc]; rfl
  · rw [processPayment_eq, processPayment_eq, List.append_assoc, printedSince_append]; rfl

/-- Counterexample to claim C5 as stated: for the card request of `main`
(order_123, 100 USD, credit card) the statuses of the lines `processPayment`
prints are not a `PENDING` followed by a `SUCCESS`; there is a single line, of
status `SUCCESS`. -/
theorem processPayment_no_pending_event :
    (printedSince [] (paymentGateway.processPayment paymentRequestWithCard [])).map
          LogLine.status
        ≠ [TransactionStatus.PENDING.toInt, TransactionStatus.SUCCESS.toInt]
      ∧ (printedSince [] (paymentGateway.processPayment paymentRequestWithCard [])).map
          LogLine.status
        = [TransactionStatus.SUCCESS.toInt] := by
  constructor
  · decide
  · rfl

/-- Claim C5, amended: for every card payment request, `processPayment` yields a
transaction of status `SUCCESS` for the order and amount of the request, and
the record it prints is exactly one event, of status `SUCCESS`, for that order
and amount; no `PENDING` event comes before it. -/
theorem processPayment_card_single_success_event (g : PaymentGateway) (orderId : String)
    (amount : ℚ) (currency : String) (paymentMethod : PaymentMethod) (card : CardInfo)
    (out : Console) :
    (g.simulateSuccessfulPayment
          (PaymentRequest.ctorCard orderId amount currency paymentMethod card)).getStatus
        = TransactionStatus.SUCCESS
      ∧ (g.simulateSuccessfulPayment
          (PaymentRequest.ctorCard orderId amount currency paymentMethod card)).getOrderId
        = orderId
      ∧ (g.simulateSuccessfulPayment
          (PaymentRequest.ctorCard orderId amount currency paymentMethod card)).getAmount
        = amount
      ∧ (printedSince out (g.processPayment
            (PaymentRequest.ctorCard orderId amount currency paymentMethod card) out)).map
          (fun l => (l.kind, l.orderId, l.amount, l.status))
        = [(LineKind.paymentLogged, orderId, amount, TransactionStatus.SUCCESS.toInt)] := by
  refine ⟨rfl, rfl, rfl, ?_⟩
  rw [processPayment_eq, printedSince_append]
  rfl

/-- Claim C6, evaluated on the run of `main`: the two payments and the refund it
creates all carry the transaction id "UniqueID123". -/
theorem main_transaction_ids_coincide :
    (paymentGateway.simulateSuccessfulPayment paymentRequestWithCard).getTransactionId
        = (paymentGateway.simulateSuccessfulPayment paymentRequestWithToken).getTransactionId
      ∧ (paymentGateway.simulateSuccessfulPayment paymentRequestWithCard).getTransactionId
        = (paymentGateway.simulateSuccessfulRefund refundRequest).getTransactionId
      ∧ main.map LogLine.id = ["UniqueID123", "UniqueID123", "UniqueID123"] :=
  ⟨rfl, rfl, rfl⟩

/-- Counterexample to claim C7 as stated: the payment created for the card
request of `main` gives back the card number and the CVV of the request. -/
theorem payment_exposes_card_number_and_cvv :
    (paymentGateway.simulateSuccessfulPayment
          paymentRequestWithCard).getPaymentRequest.getCardInfo.getCardNumber
        = "4111111111111111"
      ∧ (paymentGateway.simulateSuccessfulPayment
          paymentRequestWithCard).getPaymentRequest.getCardInfo.getCvv
        = "123" :=
  ⟨rfl, rfl⟩

/-- Claim C7, amended: for every card payment request, the payment created by
`processPayment` holds the request unchanged, so the card number and the CVV
read through `getPaymentRequest().getCardInfo()` are those of the card the
request was built from. -/
theorem payment_retains_card_data (g : PaymentGateway) (orderId : String) (amount : ℚ)
    (currency : String) (paymentMethod : PaymentMethod) (card : CardInfo) :
    (g.simulateSuccessfulPayment
          (PaymentRequest.ctorCard orderId amount currency paymentMethod card)).getPaymentRequest
        = PaymentRequest.ctorCard orderId amount currency paymentMethod card
      ∧ (g.simulateSuccessfulPayment
          (PaymentRequest.ctorCard orderId amount currency paymentMethod
            card)).getPaymentRequest.getCardInfo.getCardNumber
        = card.getCardNumber
      ∧ (g.simulateSuccessfulPayment
          (PaymentRequest.ctorCard orderId amount currency paymentMethod
            card)).getPaymentRequest.getCardInfo.getCvv
        = card.getCvv :=
  ⟨rfl, rfl, rfl⟩

/-- Counterexample to claim C8 as stated: a request of amount 0 and a request of
amount -5 are each recorded as a payment of status `SUCCESS`. -/
theorem processPayment_records_nonpositive_amount :
    paymentGateway.processPayment
          (PaymentRequest.ctorCard "order_123" 0 "USD" PaymentMethod.CREDIT_CARD cardInfo) []
        = [LogLine.mk LineKind.paymentLogged "UniqueID123" "order_123" 0
            TransactionStatus.SUCCESS.toInt "2023-08-06 14:30:00"]
      ∧ paymentGateway.processPayment
          (PaymentRequest.ctorCard "order_123" (-5) "USD" PaymentMethod.CREDIT_CARD cardInfo) []
        = [LogLine.mk LineKind.paymentLogged "UniqueID123" "order_123" (-5)
            TransactionStatus.SUCCESS.toInt "2023-08-06 14:30:00"] :=
  ⟨rfl, rfl⟩

/-- Claim C8, amended: a payment request whose amount is zero or negative is
recorded like any other: `processPayment` prints one payment line of status
`SUCCESS` carrying the amount of the request, which is not positive, and the
payment it reports has status `SUCCESS` and that amount. -/
theorem processPayment_accepts_nonpositive_amount (g : PaymentGateway) (r : PaymentRequest)
    (out : Console) (h : r.getAmount ≤ 0) :
    printedSince out (g.processPayment r out)
        = [LogLine.mk LineKind.paymentLogged "UniqueID123" r.getOrderId r.getAmount
            TransactionStatus.SUCCESS.toInt "2023-08-06 14:30:00"]
      ∧ (g.simulateSuccessfulPayment r).getStatus = TransactionStatus.SUCCESS
      ∧ (g.simulateSuccessfulPayment r).getAmount = r.getAmount
      ∧ ¬ 0 < (g.simulateSuccessfulPayment r).getAmount := by
  refine ⟨?_, rfl, rfl, ?_⟩
  · rw [processPayment_eq, printedSince_append]; rfl
  · exact not_lt.mpr h

/-- Claim C8, amended, at the request of amount 0 for order_123. -/
theorem processPayment_accepts_nonpositive_amount_witness :
    (PaymentRequest.ctorCard "order_123" 0 "USD" PaymentMethod.CREDIT_CARD cardInfo).getAmount ≤ 0
      ∧ printedSince [] (paymentGateway.processPayment
          (PaymentRequest.ctorCard "order_123" 0 "USD" PaymentMethod.CREDIT_CARD cardInfo) [])
        = [LogLine.mk LineKind.paymentLogged "UniqueID123" "order_123" 0
            TransactionStatus.SUCCESS.toInt "2023-08-06 14:30:00"]
      ∧ (paymentGateway.simulateSuccessfulPayment
          (PaymentRequest.ctorCard "order_123" 0 "USD" PaymentMethod.CREDIT_CARD
            cardInfo)).getStatus = TransactionStatus.SUCCESS
      ∧ (paymentGateway.simulateSuccessfulPayment
          (PaymentRequest.ctorCard "order_123" 0 "USD" PaymentMethod.CREDIT_CARD
            cardInfo)).getAmount = 0
      ∧ ¬ 0 < (paymentGateway.simulateSuccessfulPayment
          (PaymentRequest.ctorCard "order_123" 0 "USD" PaymentMethod.CREDIT_CARD
            cardInfo)).getAmount :=
  ⟨le_refl 0,
    processPayment_accepts_nonpositive_amount paymentGateway
      (PaymentRequest.ctorCard "order_123" 0 "USD" PaymentMethod.CREDIT_CARD cardInfo) []
      (le_refl 0)⟩

/-! ## Properties of `processRefund` -/

/-- The console after a sequence of `processRefund` calls, spelled out. -/
theorem processRefunds_eq (g : PaymentGateway) (rs : List RefundRequest) (out : Console) :
    g.processRefunds rs out
      = out ++ rs.map (fun r => LogLine.mk LineKind.refundLogged "UniqueID123" r.orderId
          r.amount 3 "2023-08-06 14:30:00") := by
  induction rs generalizing out with
  | nil => simp [PaymentGateway.processRefunds]
  | cons r rs ih =>
    have step : g.processRefunds (r :: rs) out = g.processRefunds rs (g.processRefund r out) :=
      rfl
    rw [step, ih, processRefund_eq, List.append_assoc]
    rfl

/-- The refunded total of a console made of two parts. -/
theorem refundedTotal_append (orderId : String) (a b : Console) :
    refundedTotal orderId (a ++ b) = refundedTotal orderId a + refundedTotal orderId b := by
  simp [refundedTotal, List.filter_append, List.map_append, List.sum_append]

/-- The paid total of a console made of two parts. -/
theorem paidTotal_append (orderId : String) (a b : Console) :
    paidTotal orderId (a ++ b) = paidTotal orderId a + paidTotal orderId b := by
  simp [paidTotal, List.filter_append, List.map_append, List.sum_append]

/-- A payment line adds nothing to a refunded total. -/
theorem refundedTotal_paymentLine (orderId id o : String) (a : ℚ) (st : Int) (ts : String) :
    refundedTotal orderId [LogLine.mk LineKind.paymentLogged id o a st ts] = 0 := by
  simp [refundedTotal, LogLine.isRefundedOf]

/-- A refund line adds nothing to a paid total. -/
theorem paidTotal_refundLine (orderId id o : String) (a : ℚ) (st : Int) (ts : String) :
    paidTotal orderId [LogLine.mk LineKind.refundLogged id o a st ts] = 0 := by
  simp [paidTotal, LogLine.isSuccessfulPaymentOf]

/-- A refund line of the order with status 3 adds its amount to the refunded
total of the order. -/
theorem refundedTotal_refundLine (orderId id : String) (a : ℚ) (ts : String) :
    refundedTotal orderId [LogLine.mk LineKind.refundLogged id orderId a 3 ts] = a := by
  simp [refundedTotal, LogLine.isRefundedOf, TransactionStatus.toInt]

/-- The refunded total of the lines printed for refund requests of one order is
the sum of the amounts requested. -/
theorem refundedTotal_refundLines (orderId : String) (rs : List RefundRequest)
    (h : ∀ r ∈ rs, r.orderId = orderId) :
    refundedTotal orderId (rs.map (fun r => LogLine.mk LineKind.refundLogged "UniqueID123"
        r.orderId r.amount 3 "2023-08-06 14:30:00"))
      = (rs.map RefundRequest.getAmount).sum := by
  induction rs with
  | nil => simp [refundedTotal]
  | cons r rs ih =>
    have hr : r.orderId = orderId := h r (List.mem_cons_self r rs)
    have hrs : ∀ x ∈ rs, x.orderId = orderId := fun x hx => h x (List.mem_cons_of_mem r hx)
    rw [List.map_cons, List.map_cons, List.sum_cons, ← ih hrs,
      ← List.singleton_append, refundedTotal_append, hr, refundedTotal_refundLine]
    rfl

/-- The sample of the specification: after a payment of 10000 for order_123 and
a refund of 5000, the remaining refundable balance of the order is 5000. -/
theorem remainingRefundable_sample :
    remainingRefundable "order_123"
        (paymentGateway.processRefund (RefundRequest.mk "order_123" 5000 "USD")
          (paymentGateway.processPayment
            (PaymentRequest.ctorCard "order_123" 10000 "USD" PaymentMethod.CREDIT_CARD
              cardInfo) []))
      = 5000 := by
  rw [processRefund_eq, processPayment_eq, remainingRefundable, paidTotal_append,
    refundedTotal_append, List.nil_append, refundedTotal_paymentLine, paidTotal_refundLine]
  norm_num [paidTotal, refundedTotal, LogLine.isSuccessfulPaymentOf, LogLine.isRefundedOf,
    TransactionStatus.toInt, PaymentRequest.ctorCard]

/-- Counterexample to claim C2 as stated: after the card payment of `main`
(order_123, amount 100), the refund of `main` (50) and a refund of 60 for the
same order are both recorded `REFUNDED`; their sum, 110, exceeds 100. -/
theorem refunds_exceed_payment :
    refundedTotal "order_123"
          (paymentGateway.processRefunds [refundRequest, RefundRequest.mk "order_123" 60 "USD"]
            (paymentGateway.processPayment paymentRequestWithCard []))
        = 110
      ∧ ¬ refundedTotal "order_123"
            (paymentGateway.processRefunds
              [refundRequest, RefundRequest.mk "order_123" 60 "USD"]
              (paymentGateway.processPayment paymentRequestWithCard []))
          ≤ paymentRequestWithCard.getAmount := by
  have e : refundedTotal "order_123"
      (paymentGateway.processRefunds [refundRequest, RefundRequest.mk "order_123" 60 "USD"]
        (paymentGateway.processPayment paymentRequestWithCard [])) = 110 := by
    rw [processRefunds_eq, processPayment_eq, refundedTotal_append, List.nil_append,
      refundedTotal_paymentLine, refundedTotal_refundLines "order_123" _ (by decide)]
    norm_num [refundRequest, RefundRequest.getAmount]
  refine ⟨e, ?_⟩
  rw [e]
  norm_num [paymentRequestWithCard, PaymentRequest.ctorCard, PaymentRequest.getAmount]

/-- Claim C2, amended: for every payment and every sequence of refund requests
processed against its order by `processRefund`, each request is printed as a
refund of status `REFUNDED`, and the sum of the amounts recorded `REFUNDED`
for the order grows by the sum of all the amounts requested; the amount of the
payment does not bound it. -/
theorem processRefunds_refund_every_request (g : PaymentGateway) (p : PaymentRequest)
    (rs : List RefundRequest) (out : Console)
    (h : ∀ r ∈ rs, r.getOrderId = p.getOrderId) :
    printedSince (g.processPayment p out) (g.processRefunds rs (g.processPayment p out))
        = rs.map (fun r => LogLine.mk LineKind.refundLogged "UniqueID123" r.getOrderId
            r.getAmount TransactionStatus.REFUNDED.toInt "2023-08-06 14:30:00")
      ∧ refundedTotal p.getOrderId (g.processRefunds rs (g.processPayment p out))
        = refundedTotal p.getOrderId out + (rs.map RefundRequest.getAmount).sum := by
  constructor
  · rw [processRefunds_eq, printedSince_append]; rfl
  · rw [processRefunds_eq, processPayment_eq, refundedTotal_append, refundedTotal_append,
      refundedTotal_paymentLine, refundedTotal_refundLines p.getOrderId rs h, add_zero]

/-- Claim C2, amended, at the card payment of `main` followed by refunds of 50
and 60 for its order. -/
theorem processRefunds_refund_every_request_witness :
    (∀ r ∈ [refundRequest, RefundRequest.mk "order_123" 60 "USD"],
        r.getOrderId = paymentRequestWithCard.getOrderId)
      ∧ printedSince (paymentGateway.processPayment paymentRequestWithCard [])
          (paymentGateway.processRefunds [refundRequest, RefundRequest.mk "order_123" 60 "USD"]
            (paymentGateway.processPayment paymentRequestWithCard []))
        = [refundRequest, RefundRequest.mk "order_123" 60 "USD"].map
            (fun r => LogLine.mk LineKind.refundLogged "UniqueID123" r.getOrderId
              r.getAmount TransactionStatus.REFUNDED.toInt "2023-08-06 14:30:00")
      ∧ refundedTotal paymentRequestWithCard.getOrderId
          (paymentGateway.processRefunds [refundRequest, RefundRequest.mk "order_123" 60 "USD"]
            (paymentGateway.processPayment paymentRequestWithCard []))
        = refundedTotal paymentRequestWithCard.getOrderId []
          + ([refundRequest, RefundRequest.mk "order_123" 60 "USD"].map
              RefundRequest.getAmount).sum :=
  ⟨by decide,
    processRefunds_refund_every_request paymentGateway paymentRequestWithCard
      [refundRequest, RefundRequest.mk "order_123" 60 "USD"] [] (by decide)⟩

/-- Counterexample to claim C3 as stated: after a payment of 10000 for
order_123 and a refund of 5000 the remaining refundable balance is 5000; a
refund of 6000, which is more, is not rejected: it is printed as a refund of
status `REFUNDED`, and the refunded total becomes 11000. -/
theorem refund_above_balance_recorded :
    remainingRefundable "order_123"
          (paymentGateway.processRefund (RefundRequest.mk "order_123" 5000 "USD")
            (paymentGateway.processPayment
              (PaymentRequest.ctorCard "order_123" 10000 "USD" PaymentMethod.CREDIT_CARD
                cardInfo) []))
        = 5000
      ∧ printedSince
          (paymentGateway.processRefund (RefundRequest.mk "order_123" 5000 "USD")
            (paymentGateway.processPayment
              (PaymentRequest.ctorCard "order_123" 10000 "USD" PaymentMethod.CREDIT_CARD
                cardInfo) []))
          (paymentGateway.processRefund (RefundRequest.mk "order_123" 6000 "USD")
            (paymentGateway.processRefund (RefundRequest.mk "order_123" 5000 "USD")
              (paymentGateway.processPayment
                (PaymentRequest.ctorCard "order_123" 10000 "USD" PaymentMethod.CREDIT_CARD
                  cardInfo) [])))
        = [LogLine.mk LineKind.refundLogged "UniqueID123" "order_123" 6000
            TransactionStatus.REFUNDED.toInt "2023-08-06 14:30:00"]
      ∧ refundedTotal "order_123"
          (paymentGateway.processRefund (RefundRequest.mk "order_123" 6000 "USD")
            (paymentGateway.processRefund (RefundRequest.mk "order_123" 5000 "USD")
              (paymentGateway.processPayment
                (PaymentRequest.ctorCard "order_123" 10000 "USD" PaymentMethod.CREDIT_CARD
                  cardInfo) [])))
        = 11000 := by
  refine ⟨?_, ?_, ?_⟩
  · exact remainingRefundable_sample
  · rw [processRefund_eq _ _ (paymentGateway.processRefund _ _), printedSince_append]; rfl
  · rw [processRefund_eq, processRefund_eq, processPayment_eq, refundedTotal_append,
      refundedTotal_append, List.nil_append, refundedTotal_paymentLine,
      refundedTotal_refundLine, refundedTotal_refundLine]
    norm_num

/-- Claim C3, amended: a refund request whose amount is greater than the
remaining refundable balance of its order is processed like any other:
`processRefund` prints one refund line of status `REFUNDED` with the amount
requested, and the remaining balance of the order drops by that amount, below
zero. -/
theorem processRefund_ignores_balance (g : PaymentGateway) (r : RefundRequest) (out : Console)
    (h : remainingRefundable r.getOrderId out < r.getAmount) :
    printedSince out (g.processRefund r out)
        = [LogLine.mk LineKind.refundLogged "UniqueID123" r.getOrderId r.getAmount
            TransactionStatus.REFUNDED.toInt "2023-08-06 14:30:00"]
      ∧ (g.simulateSuccessfulRefund r).getStatus = TransactionStatus.REFUNDED
      ∧ remainingRefundable r.getOrderId (g.processRefund r out)
        = remainingRefundable r.getOrderId out - r.getAmount
      ∧ remainingRefundable r.getOrderId (g.processRefund r out) < 0 := by
  have e : remainingRefundable r.getOrderId (g.processRefund r out)
      = remainingRefundable r.getOrderId out - r.getAmount := by
    rw [processRefund_eq, remainingRefundable, remainingRefundable, paidTotal_append,
      refundedTotal_append, paidTotal_refundLine]
    have line : refundedTotal r.getOrderId
        [LogLine.mk LineKind.refundLogged "UniqueID123" r.orderId r.amount 3
          "2023-08-06 14:30:00"] = r.getAmount :=
      refundedTotal_refundLine r.orderId "UniqueID123" r.amount "2023-08-06 14:30:00"
    rw [line]
    ring
  refine ⟨?_, rfl, e, ?_⟩
  · rw [processRefund_eq, printedSince_append]; rfl
  · rw [e]; linarith

/-- Claim C3, amended, at the sample of the specification: a refund of 6000 for
order_123 after a payment of 10000 and a refund of 5000. -/
theorem processRefund_ignores_balance_witness :
    remainingRefundable (RefundRequest.mk "order_123" 6000 "USD").getOrderId
          (paymentGateway.processRefund (RefundRequest.mk "order_123" 5000 "USD")
            (paymentGateway.processPayment
              (PaymentRequest.ctorCard "order_123" 10000 "USD" PaymentMethod.CREDIT_CARD
                cardInfo) []))
        < (RefundRequest.mk "order_123" 6000 "USD").getAmount
      ∧ printedSince
          (paymentGateway.processRefund (RefundRequest.mk "order_123" 5000 "USD")
            (paymentGateway.processPayment
              (PaymentRequest.ctorCard "order_123" 10000 "USD" PaymentMethod.CREDIT_CARD
                cardInfo) []))
          (paymentGateway.processRefund (RefundRequest.mk "order_123" 6000 "USD")
            (paymentGateway.processRefund (RefundRequest.mk "order_123" 5000 "USD")
              (paymentGateway.processPayment
                (PaymentRequest.ctorCard "order_123" 10000 "USD" PaymentMethod.CREDIT_CARD
                  cardInfo) [])))
        = [LogLine.mk LineKind.refundLogged "UniqueID123"
            (RefundRequest.mk "order_123" 6000 "USD").getOrderId
            (RefundRequest.mk "order_123" 6000 "USD").getAmount
            TransactionStatus.REFUNDED.toInt "2023-08-06 14:30:00"]
      ∧ (paymentGateway.simulateSuccessfulRefund
          (RefundRequest.mk "order_123" 6000 "USD")).getStatus = TransactionStatus.REFUNDED
      ∧ remainingRefundable (RefundRequest.mk "order_123" 6000 "USD").getOrderId
          (paymentGateway.processRefund (RefundRequest.mk "order_123" 6000 "USD")
            (paymentGateway.processRefund (RefundRequest.mk "order_123" 5000 "USD")
              (paymentGateway.processPayment
                (PaymentRequest.ctorCard "order_123" 10000 "USD" PaymentMethod.CREDIT_CARD
                  cardInfo) [])))
        = remainingRefundable (RefundRequest.mk "order_123" 6000 "USD").getOrderId
            (paymentGateway.processRefund (RefundRequest.mk "order_123" 5000 "USD")
              (paymentGateway.processPayment
                (PaymentRequest.ctorCard "order_123" 10000 "USD" PaymentMethod.CREDIT_CARD
                  cardInfo) []))
          - (RefundRequest.mk "order_123" 6000 "USD").getAmount
      ∧ remainingRefundable (RefundRequest.mk "order_123" 6000 "USD").getOrderId
          (paymentGateway.processRefund (RefundRequest.mk "order_123" 6000 "USD")
            (paymentGateway.processRefund (RefundRequest.mk "order_123" 5000 "USD")
              (paymentGateway.processPayment
                (PaymentRequest.ctorCard "order_123" 10000 "USD" PaymentMethod.CREDIT_CARD
                  cardInfo) [])))
        < 0 :=
  have hyp : remainingRefundable (RefundRequest.mk "order_123" 6000 "USD").getOrderId
      (paymentGateway.processRefund (RefundRequest.mk "order_123" 5000 "USD")
        (paymentGateway.processPayment
          (PaymentRequest.ctorCard "order_123" 10000 "USD" PaymentMethod.CREDIT_CARD
            cardInfo) []))
      < (RefundRequest.mk "order_123" 6000 "USD").getAmount := by
    show remainingRefundable "order_123" _ < (6000 : ℚ)
    rw [remainingRefundable_sample]
    norm_num
  ⟨hyp,
    processRefund_ignores_balance paymentGateway (RefundRequest.mk "order_123" 6000 "USD")
      (paymentGateway.processRefund (RefundRequest.mk "order_123" 5000 "USD")
        (paymentGateway.processPayment
          (PaymentRequest.ctorCard "order_123" 10000 "USD" PaymentMethod.CREDIT_CARD
            cardInfo) []))
      hyp⟩

/-- Counterexample to claim C4 as stated: on a console that holds only the
tokenized payment of `main`, for order_456, the refund request of `main`, for
order_123, has no successful payment to refer to, and `processRefund` still
prints it as a refund of status `REFUNDED`; likewise on an empty console. -/
theorem refund_without_payment_recorded :
    (paymentGateway.processPayment paymentRequestWithToken []).any
          (LogLine.isSuccessfulPaymentOf refundRequest.getOrderId) = false
      ∧ printedSince (paymentGateway.processPayment paymentRequestWithToken [])
          (paymentGateway.processRefund refundRequest
            (paymentGateway.processPayment paymentRequestWithToken []))
        = [LogLine.mk LineKind.refundLogged "UniqueID123" "order_123" 50
            TransactionStatus.REFUNDED.toInt "2023-08-06 14:30:00"]
      ∧ paymentGateway.processRefund refundRequest []
        = [LogLine.mk LineKind.refundLogged "UniqueID123" "order_123" 50
            TransactionStatus.REFUNDED.toInt "2023-08-06 14:30:00"] :=
  ⟨rfl, rfl, rfl⟩

/-- Claim C4, amended: a refund request for an order with no successful payment
on record is processed like any other: `processRefund` builds a refund of
status `REFUNDED`, prints it as one refund line with the order id and amount
requested, and the order still has no successful payment afterwards. -/
theorem processRefund_ignores_missing_payment (g : PaymentGateway) (r : RefundRequest)
    (out : Console) (h : out.any (LogLine.isSuccessfulPaymentOf r.getOrderId) = false) :
    (g.simulateSuccessfulRefund r).getStatus = TransactionStatus.REFUNDED
      ∧ printedSince out (g.processRefund r out)
        = [LogLine.mk LineKind.refundLogged "UniqueID123" r.getOrderId r.getAmount
            TransactionStatus.REFUNDED.toInt "2023-08-06 14:30:00"]
      ∧ (g.processRefund r out).any (LogLine.isSuccessfulPaymentOf r.getOrderId) = false := by
  refine ⟨rfl, ?_, ?_⟩
  · rw [processRefund_eq, printedSince_append]; rfl
  · rw [processRefund_eq, List.any_append, h]
    simp [LogLine.isSuccessfulPaymentOf]

/-- Claim C4, amended, at the refund request of `main` on a console that holds
only the tokenized payment of `main`. -/
theorem processRefund_ignores_missing_payment_witness :
    (paymentGateway.processPayment paymentRequestWithToken []).any
          (LogLine.isSuccessfulPaymentOf refundRequest.getOrderId) = false
      ∧ (paymentGateway.simulateSuccessfulRefund refundRequest).getStatus
        = TransactionStatus.REFUNDED
      ∧ printedSince (paymentGateway.processPayment paymentRequestWithToken [])
          (paymentGateway.processRefund refundRequest
            (paymentGateway.processPayment paymentRequestWithToken []))
        = [LogLine.mk LineKind.refundLogged "UniqueID123" refundRequest.getOrderId
            refundRequest.getAmount TransactionStatus.REFUNDED.toInt "2023-08-06 14:30:00"]
      ∧ (paymentGateway.processRefund refundRequest
            (paymentGateway.processPayment paymentRequestWithToken [])).any
          (LogLine.isSuccessfulPaymentOf refundRequest.getOrderId) = false :=
  ⟨rfl,
    processRefund_ignores_missing_payment paymentGateway refundRequest
      (paymentGateway.processPayment paymentRequestWithToken []) rfl⟩

end PaymentGateWay
